import Mathlib

/-!
# Verification of the `tapir` crate's `Tap` trait

The crate exposes a single operation, for every `Sized` type `T`:

```
impl<T> Tap for T {
    fn tap<F: FnOnce(&mut Self)>(mut self, f: F) -> Self {
        f(&mut self);
        self
    }
}
```

We embed this shallowly.  A Rust mutator `FnOnce(&mut T)` rewrites the
contents of the place it borrows, so in a pure setting it is a function
`α → α` on the value; `tap` binds the owned value into a mutable slot,
applies the mutator to that slot, and moves the result out.  A closure
capturing external mutable state of type `σ` (as in the doc-test that
accumulates `max`) is a function `α → σ → α × σ` threading that state; a
mutator that can fail (panic) is `α → Except ε α`; a possibly
non-returning mutator is approximated by an `Option`-valued one.
In each case `tap` performs exactly one invocation of the mutator and
returns the mutated slot, adding nothing of its own.
-/

namespace Tapir

universe u

/-- `Tap::tap` for a pure mutator: bind `v` into a mutable slot, run the
mutator on the slot (`f(&mut self)` replaces the slot contents by `f`
applied to them), move the slot contents out. -/
def tap {α : Type u} (v : α) (f : α → α) : α :=
  let slot := f v
  slot

/-- `Tap::tap` for a mutator that is a closure over external mutable state
of type `σ` (e.g. a captured counter or accumulator): the closure maps the
slot contents and the captured state to the new slot contents and the new
state; `tap` invokes it once and returns the slot together with the state
the single invocation left behind. -/
def tapS {α : Type u} {σ : Type} (v : α) (f : α → σ → α × σ) (s : σ) : α × σ :=
  let out := f v s
  out

/-- `Tap::tap` for a mutator that can fail (panic/unwind): the mutator
either produces the mutated slot contents or a failure `ε`.  `tap`
installs no handler, so the failure of the single invocation is the
failure of the whole call, and its success is the success of the call. -/
def tapE {α : Type u} {ε : Type} (v : α) (f : α → Except ε α) : Except ε α :=
  let out := f v
  out

/-- `Tap::tap` for a mutator that may not return (approximated in the
partiality monad: `none` stands for a non-returning invocation).  `tap`
adds no loop, branch or suspension point, so it returns exactly when the
single invocation of the mutator returns. -/
def tapP {α : Type u} (v : α) (f : α → Option α) : Option α :=
  let out := f v
  out

/-- Instrumentation of a stateful mutator with an invocation counter, as
in the spec's exactly-once test: every invocation increments the counter
by one and otherwise behaves as the underlying mutator. -/
def counted {α : Type u} {σ : Type} (f : α → σ → α × σ) (v : α) (p : σ × Nat) : α × (σ × Nat) :=
  let r := f v p.1
  (r.1, (r.2, p.2 + 1))

/-- The input/output relation of one `tap` call on a value paired with the
mutator's external state, read off the code: the outcome is exactly the
result of the single invocation. -/
def TapStep {α : Type u} {σ : Type} (f : α → σ → α × σ) (inp out : α × σ) : Prop :=
  tapS inp.1 f inp.2 = out

/-- A composite record type, used to exercise the blanket implementation
on a non-scalar, non-container value. -/
structure Point where
  x : Nat
  y : Nat
deriving DecidableEq

end Tapir

/-- C1: for every value `v` and every mutator `f`, `tap v f` returns the
value with exactly the mutation performed by `f` visible — the result is
the state of `v` after running `f` on it in place; in particular
`tap [3,1,2] sort = [1,2,3]`. -/
theorem tap_mutation_visible :
    (∀ (α : Type) (v : α) (f : α → α), Tapir.tap v f = f v) ∧
    Tapir.tap [3, 1, 2] (List.insertionSort (· ≤ ·)) = [1, 2, 3] := by
  exact ⟨fun _ _ _ => rfl, by decide⟩

/-- C2: for every value `v` and every no-op mutator `f` — one that may
read its reference and its captured state but leaves the referenced value
unaltered — `tap` returns the value unchanged: `tap v f = v`. -/
theorem tap_noop_identity {α σ : Type} (v : α) (f : α → σ → α × σ) (s : σ)
    (h : ∀ x t, (f x t).1 = x) : (Tapir.tapS v f s).1 = v := by
  simpa [Tapir.tapS] using h v s

/-- Witness for C2: the no-op mutator that merely reads the value into its
captured state leaves the tapped value `[1, 2]` unchanged. -/
theorem tap_noop_identity_witness :
    (Tapir.tapS [1, 2] (fun x t => (x, t + x.length)) 0).1 = [1, 2] :=
  tap_noop_identity [1, 2] (fun x t => (x, t + x.length)) 0 (fun _ _ => rfl)

/-- C3: a single `tap` call invokes the mutator exactly once: instrumenting
any mutator with an invocation counter leaves the counter exactly one above
its starting point (in particular at `1` when starting from `0`), for a
value of any type. -/
theorem tap_exactly_once :
    ∀ (α σ : Type) (v : α) (f : α → σ → α × σ) (s : σ) (c : Nat),
      (Tapir.tapS v (Tapir.counted f) (s, c)).2.2 = c + 1 :=
  fun _ _ _ _ _ _ => rfl

/-- C4: chained taps run their mutators left to right, the outcome of the
second invocation being taken on the value and state the first invocation
left behind; on `[2,8,3,4,0]` with `f` sorting and `g` appending the last
(i.e. largest) element to an external accumulator, the chained result is
the sorted list and the accumulator holds exactly the maximum of the
input. -/
theorem tap_chain_order :
    (∀ (α σ : Type) (v : α) (f g : α → σ → α × σ) (s : σ),
      Tapir.tapS (Tapir.tapS v f s).1 g (Tapir.tapS v f s).2 =
        g (f v s).1 (f v s).2) ∧
    (Tapir.tapS
        (Tapir.tapS [2, 8, 3, 4, 0]
          (fun x s => (List.insertionSort (· ≤ ·) x, s)) ([] : List Nat)).1
        (fun x acc => (x, acc ++ [x.getLast?.getD 0]))
        (Tapir.tapS [2, 8, 3, 4, 0]
          (fun x s => (List.insertionSort (· ≤ ·) x, s)) ([] : List Nat)).2 =
      ([0, 2, 3, 4, 8], [[2, 8, 3, 4, 0].foldr max 0])) := by
  exact ⟨fun _ _ _ _ _ _ => rfl, by decide⟩

/-- C5: `tap` defines no error states of its own: its outcome is exactly
the outcome of invoking the mutator directly on a mutable binding of the
value — a failing mutator makes `tap` fail with the identical, untranslated
failure, and a succeeding mutator makes `tap` succeed with the mutated
value. -/
theorem tap_failure_transparent :
    ∀ (α ε : Type) (v : α) (f : α → Except ε α),
      Tapir.tapE v f = f v ∧ ((Tapir.tapE v f).isOk ↔ (f v).isOk) :=
  fun _ _ _ _ => ⟨rfl, Iff.rfl⟩

/-- C6: the operation applies to a value of any type — the embedding of the
blanket implementation is polymorphic over every type, and it computes on a
primitive scalar, a composite record and a container alike. -/
theorem tap_type_generic :
    (∀ (α : Type) (v : α) (f : α → α), Tapir.tap v f = f v) ∧
    Tapir.tap (5 : Nat) (fun n => n + 1) = 6 ∧
    Tapir.tap (Tapir.Point.mk 1 2) (fun p => { p with x := 7 }) =
      Tapir.Point.mk 7 2 ∧
    Tapir.tap [3, 1] (fun l => 0 :: l) = [0, 3, 1] :=
  ⟨fun _ _ _ => rfl, rfl, rfl, rfl⟩

/-- C8: `tap` terminates exactly when its mutator terminates: modelling a
possibly non-returning mutator in the partiality monad, the `tap` call
returns precisely when the single invocation of the mutator returns, and
with the same value — `tap` adds no loops, branches or suspension points of
its own. -/
theorem tap_termination :
    ∀ (α : Type) (v : α) (f : α → Option α),
      ((Tapir.tapP v f).isSome ↔ (f v).isSome) ∧ Tapir.tapP v f = f v :=
  fun _ _ _ => ⟨Iff.rfl, rfl⟩

/-- C9: `tap` is deterministic: the input/output relation of one `tap`
call relates each value and mutator state to exactly one outcome, so two
runs on the same input produce equal results and equal external side
effects. -/
theorem tap_deterministic {α σ : Type} (f : α → σ → α × σ) (i o₁ o₂ : α × σ)
    (h₁ : Tapir.TapStep f i o₁) (h₂ : Tapir.TapStep f i o₂) : o₁ = o₂ :=
  h₁ ▸ h₂ ▸ rfl

/-- Witness for C9: both runs of `tap` on the value `3` with the doubling
mutator yield the unique outcome `(6, 1)`. -/
theorem tap_deterministic_witness : ((6 : Nat), (1 : Nat)) = (6, 1) :=
  tap_deterministic (fun v s => (v + v, s + 1)) (3, 0) (6, 1) (6, 1) (by rfl) (by rfl)

/-- C10: taps fuse under mutator sequencing: chaining two taps with
mutators `f` and `g` equals a single tap whose mutator runs `f` and then
`g` on the same slot, with identical external side effects; likewise for
pure mutators `tap (tap v f) g = tap v (g ∘ f)`. -/
theorem tap_fusion :
    (∀ (α σ : Type) (v : α) (f g : α → σ → α × σ) (s : σ),
      Tapir.tapS (Tapir.tapS v f s).1 g (Tapir.tapS v f s).2 =
        Tapir.tapS v (fun x t => Tapir.tapS (f x t).1 g (f x t).2) s) ∧
    (∀ (α : Type) (v : α) (f g : α → α),
      Tapir.tap (Tapir.tap v f) g = Tapir.tap v (g ∘ f)) :=
  ⟨fun _ _ _ _ _ _ => rfl, fun _ _ _ _ => rfl⟩
